import Mathlib

/-!
# Verification of the openfoodfacts-rust URL / search-query subsystem

Shallow embedding of the URL-construction and versioned search-query
builder code of the `openfoodfacts` Rust crate (`src/client.rs`,
`src/search.rs`), together with theorems settling the spec claims.

Modelling conventions:
* Rust `String` is Lean `String`; `u32` counters and values are modelled as
  `Nat` (the counters only ever grow by one per builder call, and a `u32`
  overflow would panic in a checked build, so every completed call sequence
  has counter values below `2^32`, where the models agree exactly).
* `url::Url` values are modelled as the strings they render to; `Url::join`
  of a base ending in `/` with a relative segment is string concatenation.
* The crate modules `locale`, `output` and `types` are referenced by
  `client.rs` / `search.rs` but their sources are not in the repository
  snapshot; the few definitions needed from them (`Locale`, `Output`,
  the version wire strings, `Params`) are modelled from the spec, and are
  marked as such in their doc comments.
-/

namespace Off

/-- Modelled from the spec: the `locale` module is not in the snapshot.
A locale is a country code plus an optional language code (spec section 3). -/
structure Locale where
  country : String
  language : Option String
deriving DecidableEq, Repr

/-- Modelled from the spec: a locale renders as `country` alone, or
`country-language` when the language is present (spec section 3). -/
def Locale.render (l : Locale) : String :=
  match l.language with
  | some lang => l.country ++ "-" ++ lang
  | none => l.country

/-- Modelled from the spec: `Locale::default()` is
`{country: "world", language: None}` (spec section 4.1). -/
def Locale.defaultLocale : Locale :=
  { country := "world", language := none }

/-- `Params` from the `types` module: an ordered list of
`(name, value)` string pairs. -/
abbrev Params := List (String × String)

/-- Modelled from the spec: the `output` module is not in the snapshot.
The output option bag: `locale`, `page`, `page_size`, `fields`, `nocache`
(spec section 3). -/
structure Output where
  locale : Option Locale := none
  page : Option Nat := none
  page_size : Option Nat := none
  fields : Option String := none
  nocache : Option Bool := none

/-- One optional output entry of `Output::params`: emitted only when the
value is present and the name is in the whitelist. -/
def outputEntry (allowed : List String) (name : String) (value : Option String) :
    Params :=
  match value with
  | some v => if allowed.contains name then [(name, v)] else []
  | none => []

/-- Modelled from the spec: `Output::params(allowed)` emits, in the
canonical order page, page_size, fields, nocache, one pair per option
present in both the bag and the whitelist; `locale` is never emitted as a
parameter; numbers render base-10 and booleans as "true"/"false"
(spec section 4.3). -/
def Output.params (o : Output) (allowed : List String) : Params :=
  outputEntry allowed "page" (o.page.map toString)
    ++ outputEntry allowed "page_size" (o.page_size.map toString)
    ++ outputEntry allowed "fields" o.fields
    ++ outputEntry allowed "nocache" (o.nocache.map (fun b => if b then "true" else "false"))

/-- The sort criteria of `search.rs` (`enum SortBy`). -/
inductive SortBy where
  | Popularity
  | ProductName
  | CreatedDate
  | LastModifiedDate
  | EcoScore
deriving DecidableEq, Repr

/-- The `Display` impl for `SortBy`: the wire string of each criterion. -/
def SortBy.toWire : SortBy → String
  | .Popularity => "unique_scans_n"
  | .ProductName => "product_name"
  | .CreatedDate => "created_t"
  | .LastModifiedDate => "last_modified_t"
  | .EcoScore => "ecoscore_score"

/-- The internal representation of a search query parameter value
(`enum Value` of `search.rs`): a string, a `u32` number, or none. -/
inductive Value where
  | string (s : String)
  | number (n : Nat)
  | none
deriving DecidableEq, Repr

/-- `struct SearchQuery<S>` of `search.rs`: accumulated parameter pairs,
the optional sort order, and version-specific state. -/
structure SearchQuery (S : Type) where
  params : List (String × Value)
  sort_by : Option SortBy
  state : S

/-- `SearchQuery::sort_by`: sets (overwrites) the sorting order. -/
def SearchQuery.sortBy {S : Type} (q : SearchQuery S) (s : SortBy) : SearchQuery S :=
  { q with sort_by := some s }

/-- `struct QueryStateV0`: the two independent `u32` counters. -/
structure QueryStateV0 where
  criteria_index : Nat
  nutrient_index : Nat
deriving DecidableEq, Repr

/-- `SearchQueryV0 = SearchQuery<QueryStateV0>`. -/
abbrev SearchQueryV0 := SearchQuery QueryStateV0

/-- `SearchQueryV0::new()`: the default query (empty params, no sort,
both counters zero). -/
def SearchQueryV0.new : SearchQueryV0 :=
  { params := [], sort_by := Option.none, state := { criteria_index := 0, nutrient_index := 0 } }

/-- `SearchQueryV0::criteria`: pre-increments `criteria_index` and pushes
the triplet `tagtype_N`, `tag_contains_N`, `tag_N`. -/
def SearchQueryV0.criteria (q : SearchQueryV0) (criteria op value : String) :
    SearchQueryV0 :=
  let i := q.state.criteria_index + 1
  { q with
    state := { q.state with criteria_index := i },
    params := q.params
      ++ [("tagtype_" ++ toString i, Value.string criteria),
          ("tag_contains_" ++ toString i, Value.string op),
          ("tag_" ++ toString i, Value.string value)] }

/-- `SearchQueryV0::ingredient`: pushes one pair; when the ingredient is
"additives" the value gets the `_additives` suffix. -/
def SearchQueryV0.ingredient (q : SearchQueryV0) (ingredient value : String) :
    SearchQueryV0 :=
  { q with
    params := q.params
      ++ [(ingredient,
           match ingredient with
           | "additives" => Value.string (value ++ "_additives")
           | _ => Value.string value)] }

/-- `SearchQueryV0::nutrient`: pre-increments `nutrient_index` and pushes
the triplet `nutriment_N`, `nutriment_compare_N`, `nutriment_value_N`. -/
def SearchQueryV0.nutrient (q : SearchQueryV0) (nutriment op : String) (value : Nat) :
    SearchQueryV0 :=
  let i := q.state.nutrient_index + 1
  { q with
    state := { q.state with nutrient_index := i },
    params := q.params
      ++ [("nutriment_" ++ toString i, Value.string nutriment),
          ("nutriment_compare_" ++ toString i, Value.string op),
          ("nutriment_value_" ++ toString i, Value.number value)] }

/-- `SearchQueryV0::terms`: pushes the unindexed `search_terms` pair. -/
def SearchQueryV0.terms (q : SearchQueryV0) (search_terms : String) : SearchQueryV0 :=
  { q with params := q.params ++ [("search_terms", Value.string search_terms)] }

/-- Rendering of one V0 `Value` in `QueryParams for SearchQueryV0`:
strings pass through, numbers render decimal, `Value::None` is skipped
(the loop `continue`s). -/
def renderValueV0 : Value → Option String
  | .string s => some s
  | .number n => some (toString n)
  | .none => Option.none

/-- The pair-rendering loop of `QueryParams for SearchQueryV0`. -/
def renderPairsV0 (ps : List (String × Value)) : Params :=
  ps.filterMap (fun p => (renderValueV0 p.2).map (fun v => (p.1, v)))

/-- The optional trailing `sort_by` pair of both serializers. -/
def sortByPairs : Option SortBy → Params
  | some s => [("sort_by", s.toWire)]
  | Option.none => []

/-- `QueryParams::params` for `SearchQueryV0`: rendered pairs, then the
optional `sort_by` pair, then the constants `action=process`, `json=true`. -/
def queryParamsV0 (q : SearchQueryV0) : Params :=
  renderPairsV0 q.params ++ sortByPairs q.sort_by
    ++ [("action", "process"), ("json", "true")]

/-- `SearchQueryV2 = SearchQuery<QueryStateV2>`; `QueryStateV2` is a unit
struct, modelled as `Unit`. -/
abbrev SearchQueryV2 := SearchQuery Unit

/-- `SearchQueryV2::new()`. -/
def SearchQueryV2.new : SearchQueryV2 :=
  { params := [], sort_by := Option.none, state := () }

/-- `SearchQueryV2::criteria`: pushes `{criteria}_tags=value`, or
`{criteria}_tags_{lc}=value` when a language code is given. -/
def SearchQueryV2.criteria (q : SearchQueryV2) (criteria value : String)
    (lc : Option String) : SearchQueryV2 :=
  match lc with
  | some lc =>
      { q with params := q.params ++ [(criteria ++ "_tags_" ++ lc, Value.string value)] }
  | Option.none =>
      { q with params := q.params ++ [(criteria ++ "_tags", Value.string value)] }

/-- `SearchQueryV2::nutrient`: for `op == "="` pushes
`{nutrient}_{unit}=value`; for any other operator pushes the non-valued
parameter `{nutrient}_{unit}{op}{value}`. -/
def SearchQueryV2.nutrient (q : SearchQueryV2) (nutrient unit op : String)
    (value : Nat) : SearchQueryV2 :=
  let param :=
    match op with
    | "=" => (nutrient ++ "_" ++ unit, Value.number value)
    | _ => (nutrient ++ "_" ++ unit ++ op ++ toString value, Value.none)
  { q with params := q.params ++ [param] }

/-- `SearchQueryV2::nutrient_100g`. -/
def SearchQueryV2.nutrient_100g (q : SearchQueryV2) (nutrient op : String)
    (value : Nat) : SearchQueryV2 :=
  q.nutrient nutrient "100g" op value

/-- `SearchQueryV2::nutrient_serving`. -/
def SearchQueryV2.nutrient_serving (q : SearchQueryV2) (nutrient op : String)
    (value : Nat) : SearchQueryV2 :=
  q.nutrient nutrient "serving" op value

/-- Rendering of one V2 `Value` in `QueryParams for SearchQueryV2`:
`Value::None` renders as the empty string. -/
def renderValueV2 : Value → String
  | .string s => s
  | .number n => toString n
  | .none => ""

/-- The pair-rendering loop of `QueryParams for SearchQueryV2`. -/
def renderPairsV2 (ps : List (String × Value)) : Params :=
  ps.map (fun p => (p.1, renderValueV2 p.2))

/-- `QueryParams::params` for `SearchQueryV2`: rendered pairs then the
optional `sort_by` pair; no trailing constants. -/
def queryParamsV2 (q : SearchQueryV2) : Params :=
  renderPairsV2 q.params ++ sortByPairs q.sort_by

-- ---------------------------------------------------------------------------
-- URL construction (client.rs)
-- ---------------------------------------------------------------------------

/-- `Urls::host_with_locale` of `client.rs`, for a client with default
locale `defaultLocale`: `https://{locale_or_default}.openfoodfacts.org/`.
`url::Url` values are modelled as their rendered strings. -/
def hostWithLocale (defaultLocale : Locale) (locale : Option Locale) : String :=
  "https://"
    ++ (match locale with
        | some l => l.render
        | Option.none => defaultLocale.render)
    ++ ".openfoodfacts.org/"

/-- `Urls::base_url`: the host URL for the given or default locale. -/
def baseUrl (defaultLocale : Locale) (locale : Option Locale) : String :=
  hostWithLocale defaultLocale locale

/-- `Urls::base_url_world`: the host URL forced to `Locale::default()`. -/
def baseUrlWorld (defaultLocale : Locale) : String :=
  hostWithLocale defaultLocale (some Locale.defaultLocale)

/-- `Urls::cgi_url`: the base URL joined with `cgi/`. -/
def cgiUrl (defaultLocale : Locale) (locale : Option Locale) : String :=
  baseUrl defaultLocale locale ++ "cgi/"

/-- Modelled from the spec: the `types` module (version markers `V0`, `V2`)
is not in the snapshot; the wire strings of the markers are "v0" and "v2"
(spec sections 3 and 4.2). -/
inductive ApiVersion where
  | v0
  | v2
deriving DecidableEq, Repr

/-- The wire string of the version marker. -/
def ApiVersion.wire : ApiVersion → String
  | .v0 => "v0"
  | .v2 => "v2"

/-- `ApiUrl::api_url`: the base URL joined with `api/{version}/`. -/
def apiUrl (v : ApiVersion) (defaultLocale : Locale) (locale : Option Locale) :
    String :=
  baseUrl defaultLocale locale ++ "api/" ++ v.wire ++ "/"

/-- `SearchUrl for OffClient<V0>`: the CGI URL joined with `search.pl`. -/
def searchUrlV0 (defaultLocale : Locale) (locale : Option Locale) : String :=
  cgiUrl defaultLocale locale ++ "search.pl"

/-- `SearchUrl for OffClient<V2>`: the API URL joined with `search`. -/
def searchUrlV2 (defaultLocale : Locale) (locale : Option Locale) : String :=
  apiUrl ApiVersion.v2 defaultLocale locale ++ "search"

/-- `OffClient::taxonomy`: the world base URL joined with
`data/taxonomies/{taxonomy}.json`. -/
def taxonomyUrl (defaultLocale : Locale) (taxonomy : String) : String :=
  baseUrlWorld defaultLocale ++ "data/taxonomies/" ++ taxonomy ++ ".json"

/-- `OffClient::categories`: the base URL for the output locale (or the
client default) joined with `categories.json`. -/
def categoriesUrl (defaultLocale : Locale) (output : Option Output) : String :=
  baseUrl defaultLocale (output.bind Output.locale) ++ "categories.json"

-- ---------------------------------------------------------------------------
-- Dispatch (SearchQuery::search and RequestMethods::get)
-- ---------------------------------------------------------------------------

/-- The parameter-list assembly of `SearchQuery::search`: the query
serialized pairs of the query builder, extended with the output options filtered
against the whitelist `["page", "page_size", "fields"]`. -/
def searchParams (queryPairs : Params) (output : Option Output) : Params :=
  queryPairs
    ++ (match output with
        | some o => o.params ["page", "page_size", "fields"]
        | Option.none => [])

/-- A transport response, as seen by this layer: a status code and a body.
The client never inspects either. -/
structure HttpResponse where
  status : Nat
  body : String
deriving DecidableEq, Repr

/-- `RequestMethods::get` for `OffClient`: builds the request for the URL
and optional parameters, delegates to the external transport, propagates a
transport error with `?`, and otherwise returns the raw response as `Ok`.
The external transport (`reqwest`) is a function argument. -/
def getRequest {E : Type}
    (transport : String → Option Params → Except E HttpResponse)
    (url : String) (params : Option Params) : Except E HttpResponse :=
  match transport url params with
  | .ok response => .ok response
  | .error e => .error e

-- ---------------------------------------------------------------------------
-- Call traces for the V0 builder
-- ---------------------------------------------------------------------------

/-- One fluent call on a `SearchQueryV0` builder. -/
inductive CallV0 where
  | criteria (name op value : String)
  | ingredient (name value : String)
  | nutrient (name op : String) (value : Nat)
  | terms (text : String)
  | sortBy (s : SortBy)

/-- Apply one fluent call to a V0 builder. -/
def applyCallV0 (q : SearchQueryV0) : CallV0 → SearchQueryV0
  | .criteria n o v => q.criteria n o v
  | .ingredient n v => q.ingredient n v
  | .nutrient n o v => q.nutrient n o v
  | .terms t => q.terms t
  | .sortBy s => q.sortBy s

/-- Apply a sequence of fluent calls, left to right. -/
def applyCallsV0 (q : SearchQueryV0) (cs : List CallV0) : SearchQueryV0 :=
  cs.foldl applyCallV0 q

/-- The number of `criteria` calls in a trace. -/
def criteriaCount (cs : List CallV0) : Nat :=
  cs.countP (fun c => match c with | .criteria _ _ _ => true | _ => false)

/-- The number of `nutrient` calls in a trace. -/
def nutrientCount (cs : List CallV0) : Nat :=
  cs.countP (fun c => match c with | .nutrient _ _ _ => true | _ => false)

/-- The sort criterion left set after a trace, starting from `s`. -/
def lastSortFrom (s : Option SortBy) (cs : List CallV0) : Option SortBy :=
  cs.foldl (fun acc c => match c with | .sortBy s => some s | _ => acc) s

/-- The sort criterion left set after a trace on a fresh builder. -/
def lastSort (cs : List CallV0) : Option SortBy :=
  lastSortFrom Option.none cs

/-- One step of the description the spec gives of the V0 serialization: the pairs
the spec says each call emits, threading the two counters (spec section
4.4). This definition follows the wording of the spec, for comparison with the
serializer embedded from the source. -/
def specStepV0 : Params × Nat × Nat → CallV0 → Params × Nat × Nat
  | (ps, ci, ni), .criteria n o v =>
      (ps ++ [("tagtype_" ++ toString (ci + 1), n),
              ("tag_contains_" ++ toString (ci + 1), o),
              ("tag_" ++ toString (ci + 1), v)], ci + 1, ni)
  | (ps, ci, ni), .ingredient n v =>
      (ps ++ [(n, if n = "additives" then v ++ "_additives" else v)], ci, ni)
  | (ps, ci, ni), .nutrient n o v =>
      (ps ++ [("nutriment_" ++ toString (ni + 1), n),
              ("nutriment_compare_" ++ toString (ni + 1), o),
              ("nutriment_value_" ++ toString (ni + 1), toString v)], ci, ni + 1)
  | (ps, ci, ni), .terms t => (ps ++ [("search_terms", t)], ci, ni)
  | (ps, ci, ni), .sortBy _ => (ps, ci, ni)

/-- The pairs the spec says a V0 trace emits, in call order, with both
counters starting at zero. -/
def specEmittedV0 (cs : List CallV0) : Params :=
  (cs.foldl specStepV0 ([], 0, 0)).1

-- ---------------------------------------------------------------------------
-- Helper lemmas
-- ---------------------------------------------------------------------------

lemma renderPairsV0_append (ps qs : List (String × Value)) :
    renderPairsV0 (ps ++ qs) = renderPairsV0 ps ++ renderPairsV0 qs := by
  simp [renderPairsV0]

lemma renderPairsV2_append (ps qs : List (String × Value)) :
    renderPairsV2 (ps ++ qs) = renderPairsV2 ps ++ renderPairsV2 qs := by
  simp [renderPairsV2]

lemma ingredient_params (q : SearchQueryV0) (n v : String) :
    (q.ingredient n v).params
      = q.params ++ [(n, Value.string (if n = "additives" then v ++ "_additives" else v))] := by
  unfold SearchQueryV0.ingredient
  split
  · simp
  · next h => rw [if_neg h]

lemma applyCallsV0_append (q : SearchQueryV0) (cs ds : List CallV0) :
    applyCallsV0 q (cs ++ ds) = applyCallsV0 (applyCallsV0 q cs) ds := by
  simp [applyCallsV0, List.foldl_append]

lemma criteria_index_applyCallsV0 (cs : List CallV0) :
    ∀ q : SearchQueryV0,
      (applyCallsV0 q cs).state.criteria_index
        = q.state.criteria_index + criteriaCount cs := by
  induction cs with
  | nil => intro q; simp [applyCallsV0, criteriaCount]
  | cons c cs ih =>
    intro q
    rw [show applyCallsV0 q (c :: cs) = applyCallsV0 (applyCallV0 q c) cs from rfl,
      ih (applyCallV0 q c)]
    cases c <;>
      simp [applyCallV0, SearchQueryV0.criteria, SearchQueryV0.ingredient,
        SearchQueryV0.nutrient, SearchQueryV0.terms, SearchQuery.sortBy,
        criteriaCount, List.countP_cons] <;> try omega

lemma nutrient_index_applyCallsV0 (cs : List CallV0) :
    ∀ q : SearchQueryV0,
      (applyCallsV0 q cs).state.nutrient_index
        = q.state.nutrient_index + nutrientCount cs := by
  induction cs with
  | nil => intro q; simp [applyCallsV0, nutrientCount]
  | cons c cs ih =>
    intro q
    rw [show applyCallsV0 q (c :: cs) = applyCallsV0 (applyCallV0 q c) cs from rfl,
      ih (applyCallV0 q c)]
    cases c <;>
      simp [applyCallV0, SearchQueryV0.criteria, SearchQueryV0.ingredient,
        SearchQueryV0.nutrient, SearchQueryV0.terms, SearchQuery.sortBy,
        nutrientCount, List.countP_cons] <;> try omega

lemma sort_by_applyCallsV0 (cs : List CallV0) :
    ∀ q : SearchQueryV0,
      (applyCallsV0 q cs).sort_by = lastSortFrom q.sort_by cs := by
  induction cs with
  | nil => intro q; simp [applyCallsV0, lastSortFrom]
  | cons c cs ih =>
    intro q
    rw [show applyCallsV0 q (c :: cs) = applyCallsV0 (applyCallV0 q c) cs from rfl,
      ih (applyCallV0 q c)]
    cases c <;>
      simp [applyCallV0, SearchQueryV0.criteria, SearchQueryV0.ingredient,
        SearchQueryV0.nutrient, SearchQueryV0.terms, SearchQuery.sortBy,
        lastSortFrom]

lemma params_applyCallsV0_extend (cs : List CallV0) :
    ∀ q : SearchQueryV0,
      ∃ tail, (applyCallsV0 q cs).params = q.params ++ tail := by
  induction cs with
  | nil => intro q; exact ⟨[], by simp [applyCallsV0]⟩
  | cons c cs ih =>
    intro q
    obtain ⟨tail, htail⟩ := ih (applyCallV0 q c)
    have hc : ∃ L, (applyCallV0 q c).params = q.params ++ L := by
      cases c with
      | criteria n o v => exact ⟨_, rfl⟩
      | ingredient n v => exact ⟨_, rfl⟩
      | nutrient n o v => exact ⟨_, rfl⟩
      | terms t => exact ⟨_, rfl⟩
      | sortBy s => exact ⟨[], by simp [applyCallV0, SearchQuery.sortBy]⟩
    obtain ⟨L, hL⟩ := hc
    refine ⟨L ++ tail, ?_⟩
    rw [show applyCallsV0 q (c :: cs) = applyCallsV0 (applyCallV0 q c) cs from rfl,
      htail, hL, List.append_assoc]

lemma specStepV0_extract (c : CallV0) (ps : Params) (ci ni : Nat) :
    specStepV0 (ps, ci, ni) c
      = (ps ++ (specStepV0 ([], ci, ni) c).1, (specStepV0 ([], ci, ni) c).2) := by
  cases c <;> simp [specStepV0]

lemma specFoldV0_extract (cs : List CallV0) :
    ∀ (ps : Params) (ci ni : Nat),
      cs.foldl specStepV0 (ps, ci, ni)
        = (ps ++ (cs.foldl specStepV0 ([], ci, ni)).1,
           (cs.foldl specStepV0 ([], ci, ni)).2) := by
  induction cs with
  | nil => intro ps ci ni; simp
  | cons c cs ih =>
    intro ps ci ni
    rcases h : specStepV0 ([], ci, ni) c with ⟨e1, ci', ni'⟩
    have hstep : specStepV0 (ps, ci, ni) c = (ps ++ e1, ci', ni') := by
      rw [specStepV0_extract c ps ci ni, h]
    simp only [List.foldl_cons, hstep, h]
    rw [ih (ps ++ e1) ci' ni', ih e1 ci' ni']
    simp [List.append_assoc]

lemma mem_outputEntry {a : List String} {nm : String} {v : Option String}
    {p : String × String} (h : p ∈ outputEntry a nm v) : p.1 = nm := by
  unfold outputEntry at h
  match v with
  | some s =>
    split at h
    · simp at h
      rw [h.2]
    · simp at h
  | Option.none => simp at h

lemma renderPairs_applyCallsV0 (cs : List CallV0) :
    ∀ q : SearchQueryV0,
      renderPairsV0 (applyCallsV0 q cs).params
        = renderPairsV0 q.params
          ++ (cs.foldl specStepV0
                ([], q.state.criteria_index, q.state.nutrient_index)).1 := by
  induction cs with
  | nil => intro q; simp [applyCallsV0]
  | cons c cs ih =>
    intro q
    rw [show applyCallsV0 q (c :: cs) = applyCallsV0 (applyCallV0 q c) cs from rfl,
      ih (applyCallV0 q c)]
    simp only [List.foldl_cons]
    cases c with
    | criteria n o v =>
      simp only [applyCallV0, SearchQueryV0.criteria, specStepV0,
        renderPairsV0_append]
      conv_rhs => rw [specFoldV0_extract]
      simp [renderPairsV0, renderValueV0, List.append_assoc]
    | ingredient n v =>
      rw [show (applyCallV0 q (CallV0.ingredient n v)) = q.ingredient n v from rfl,
        ingredient_params q n v, renderPairsV0_append]
      simp only [specStepV0]
      conv_rhs => rw [specFoldV0_extract]
      simp [SearchQueryV0.ingredient, renderPairsV0, renderValueV0,
        List.append_assoc]
    | nutrient n o v =>
      simp only [applyCallV0, SearchQueryV0.nutrient, specStepV0,
        renderPairsV0_append]
      conv_rhs => rw [specFoldV0_extract]
      simp [renderPairsV0, renderValueV0, List.append_assoc]
    | terms t =>
      simp only [applyCallV0, SearchQueryV0.terms, specStepV0,
        renderPairsV0_append]
      conv_rhs => rw [specFoldV0_extract]
      simp [renderPairsV0, renderValueV0, List.append_assoc]
    | sortBy s =>
      simp only [applyCallV0, SearchQuery.sortBy, specStepV0]

-- ---------------------------------------------------------------------------
-- Claim theorems
-- ---------------------------------------------------------------------------

/-- Claim C4: for every V2 query, nutrient name, unit, operator and value, when
the operator is "=" the serialized output gains the pair
`({name}_{unit}, value-as-decimal)`; for any other operator it gains
exactly one pair whose name is the literal concatenation
`{name}_{unit}{op}{value}` and whose value is the empty string. -/
theorem v2_nutrient_encoding (q : SearchQueryV2) (name unit op : String)
    (value : Nat) :
    queryParamsV2 (q.nutrient name unit op value)
      = renderPairsV2 q.params
        ++ [if op = "="
            then (name ++ "_" ++ unit, toString value)
            else (name ++ "_" ++ unit ++ op ++ toString value, "")]
        ++ sortByPairs q.sort_by := by
  unfold queryParamsV2 SearchQueryV2.nutrient
  split
  · simp [renderPairsV2_append, renderPairsV2, renderValueV2]
  · next h =>
    rw [if_neg h]
    simp [renderPairsV2_append, renderPairsV2, renderValueV2]

/-- Claim C6: for every V0 query and value string, `ingredient(name, v)` adds
exactly one pair to the serialized output: `("additives", "{v}_additives")`
when the name is "additives", and `(name, v)` otherwise. -/
theorem v0_ingredient_encoding (q : SearchQueryV0) (name value : String) :
    queryParamsV0 (q.ingredient name value)
      = renderPairsV0 q.params
        ++ [(name, if name = "additives" then value ++ "_additives" else value)]
        ++ sortByPairs q.sort_by
        ++ [("action", "process"), ("json", "true")] := by
  have hp := ingredient_params q name value
  unfold queryParamsV0
  rw [show (q.ingredient name value).sort_by = q.sort_by from rfl, hp,
    renderPairsV0_append]
  simp [renderPairsV0, renderValueV0]

/-- Claim C7: for every V2 query, `criteria(name, value, lc?)` appends exactly
one pair, `({name}_tags, value)` without a language code and
`({name}_tags_{lc}, value)` with one; no counter is involved. -/
theorem v2_criteria_encoding (q : SearchQueryV2) (name value : String)
    (lc : Option String) :
    (q.criteria name value lc).params
        = q.params
          ++ [(match lc with
               | some l => name ++ "_tags_" ++ l
               | Option.none => name ++ "_tags", Value.string value)]
      ∧ queryParamsV2 (q.criteria name value lc)
        = renderPairsV2 q.params
          ++ [(match lc with
               | some l => name ++ "_tags_" ++ l
               | Option.none => name ++ "_tags", value)]
          ++ sortByPairs q.sort_by := by
  cases lc with
  | none =>
    refine ⟨rfl, ?_⟩
    unfold queryParamsV2 SearchQueryV2.criteria
    simp [renderPairsV2_append, renderPairsV2, renderValueV2]
  | some l =>
    refine ⟨rfl, ?_⟩
    unfold queryParamsV2 SearchQueryV2.criteria
    simp [renderPairsV2_append, renderPairsV2, renderValueV2]

/-- Claim C5: the search URL is version-polymorphic: for every default locale and
optional call locale, the V0 search URL is the CGI URL joined with
`search.pl`, rendering `https://{locale}.openfoodfacts.org/cgi/search.pl`,
and the V2 search URL is the API URL joined with `search`, rendering
`https://{locale}.openfoodfacts.org/api/v2/search`. -/
theorem search_url_version_polymorphic (d : Locale) (loc : Option Locale) :
    searchUrlV0 d loc = cgiUrl d loc ++ "search.pl"
      ∧ searchUrlV2 d loc = apiUrl ApiVersion.v2 d loc ++ "search"
      ∧ searchUrlV0 d loc
        = "https://"
          ++ (match loc with | some l => l.render | Option.none => d.render)
          ++ ".openfoodfacts.org/cgi/search.pl"
      ∧ searchUrlV2 d loc
        = "https://"
          ++ (match loc with | some l => l.render | Option.none => d.render)
          ++ ".openfoodfacts.org/api/v2/search" := by
  refine ⟨rfl, rfl, ?_, ?_⟩
  · unfold searchUrlV0 cgiUrl baseUrl hostWithLocale
    cases loc <;> simp [String.append_assoc]
  · unfold searchUrlV2 apiUrl baseUrl hostWithLocale ApiVersion.wire
    cases loc <;> simp [String.append_assoc]

/-- Claim C1 counterexample: with client default locale "world" and an output
bag carrying locale "fr", `categories` targets the host
`https://fr.openfoodfacts.org/`, not `https://world.openfoodfacts.org/`,
so the categories endpoint does not force the "world" locale. -/
theorem categories_locale_counterexample :
    categoriesUrl { country := "world", language := Option.none }
        (some { locale := some { country := "fr", language := Option.none } })
      = "https://fr.openfoodfacts.org/categories.json"
    ∧ categoriesUrl { country := "world", language := Option.none }
        (some { locale := some { country := "fr", language := Option.none } })
      ≠ "https://world.openfoodfacts.org/categories.json" := by
  constructor
  · rfl
  · decide

/-- Claim C1 amended: the taxonomy endpoint always forces the "world" locale
regardless of the client default; the categories endpoint instead uses the
caller-supplied locale from the output options, or the client default when
none is given. -/
theorem taxonomy_world_categories_locale :
    (∀ (d : Locale) (t : String),
      taxonomyUrl d t
        = "https://world.openfoodfacts.org/data/taxonomies/" ++ t ++ ".json")
    ∧ (∀ (d l : Locale),
      categoriesUrl d (some { locale := some l })
        = "https://" ++ l.render ++ ".openfoodfacts.org/categories.json")
    ∧ (∀ (d : Locale),
      categoriesUrl d Option.none
        = "https://" ++ d.render ++ ".openfoodfacts.org/categories.json") := by
  refine ⟨?_, ?_, ?_⟩
  · intro d t
    unfold taxonomyUrl baseUrlWorld hostWithLocale Locale.defaultLocale Locale.render
    simp [String.append_assoc]
  · intro d l
    unfold categoriesUrl baseUrl hostWithLocale
    simp [String.append_assoc]
  · intro d
    unfold categoriesUrl baseUrl hostWithLocale
    simp [String.append_assoc]

/-- Claim C8: for every search dispatch with an output bag present, the final
parameter list is the serialized pairs of the query builder followed by the
output pairs filtered against exactly the whitelist
`["page", "page_size", "fields"]`, and no emitted output pair is named
"nocache". -/
theorem search_params_whitelist (q0 : SearchQueryV0) (q2 : SearchQueryV2)
    (o : Output) :
    searchParams (queryParamsV0 q0) (some o)
        = queryParamsV0 q0 ++ o.params ["page", "page_size", "fields"]
      ∧ searchParams (queryParamsV2 q2) (some o)
        = queryParamsV2 q2 ++ o.params ["page", "page_size", "fields"]
      ∧ ∀ p ∈ o.params ["page", "page_size", "fields"], p.1 ≠ "nocache" := by
  refine ⟨rfl, rfl, ?_⟩
  intro p hp
  unfold Output.params at hp
  rcases List.mem_append.mp hp with h | h
  · rcases List.mem_append.mp h with h' | h'
    · rcases List.mem_append.mp h' with h'' | h''
      · rw [mem_outputEntry h'']
        decide
      · rw [mem_outputEntry h'']
        decide
    · rw [mem_outputEntry h']
      decide
  · exfalso
    rcases hno : o.nocache with _ | b <;> simp only [outputEntry, hno, Option.map] at h
    · exact (List.not_mem_nil p) h
    · rw [if_neg (by decide)] at h
      exact (List.not_mem_nil p) h

/-- Claim C9: the GET dispatch never turns an HTTP status into an error: whenever
the transport returns a response (of any status code), `get` returns that
raw response as success, and when the transport fails the failure is
propagated unchanged. -/
theorem get_passes_transport_through {E : Type}
    (transport : String → Option Params → Except E HttpResponse)
    (url : String) (params : Option Params) :
    (∀ r : HttpResponse, transport url params = .ok r →
      getRequest transport url params = .ok r)
    ∧ (∀ e : E, transport url params = .error e →
      getRequest transport url params = .error e) := by
  constructor
  · intro r h
    unfold getRequest
    rw [h]
  · intro e h
    unfold getRequest
    rw [h]

/-- Claim C9 witness: a transport returning a 404 response is passed through as
success, and the error of a failing transport is propagated. -/
theorem get_passes_transport_through_witness :
    getRequest (fun _ _ => (Except.ok { status := 404, body := "not found" } :
          Except String HttpResponse))
        "https://world.openfoodfacts.org/cgi/search.pl" Option.none
      = Except.ok { status := 404, body := "not found" }
    ∧ getRequest (fun _ _ => (Except.error "connection refused" :
          Except String HttpResponse))
        "https://world.openfoodfacts.org/cgi/search.pl" Option.none
      = Except.error "connection refused" :=
  ⟨(get_passes_transport_through _ _ _).1 _ rfl,
   (get_passes_transport_through _ _ _).2 _ rfl⟩

/-- Claim C2: for every V0 call trace, serialization emits all parameter pairs
produced by criteria/ingredient/nutrient/terms in call order, followed by
one `sort_by` pair iff a sort was set, followed by the constant pair
`("action", "process")`, followed last by `("json", "true")`. -/
theorem v0_serialization_order (cs : List CallV0) :
    queryParamsV0 (applyCallsV0 SearchQueryV0.new cs)
      = specEmittedV0 cs ++ sortByPairs (lastSort cs)
        ++ [("action", "process"), ("json", "true")] := by
  unfold queryParamsV0 specEmittedV0 lastSort
  rw [renderPairs_applyCallsV0 cs SearchQueryV0.new,
    sort_by_applyCallsV0 cs SearchQueryV0.new]
  simp [SearchQueryV0.new, renderPairsV0]

/-- Claim C3: in the V0 builder the criteria and nutrient counters are
independent and strictly increasing per call of their own method: after
any trace, a further `criteria` call appends its triplet with numeric
suffix (number of previous criteria calls) + 1, a further `nutrient` call
appends its triplet with suffix (number of previous nutrient calls) + 1 —
each count ignoring all interleaved other calls — and previously emitted
pairs persist under any further calls. -/
theorem v0_counters_independent (cs rest : List CallV0)
    (n o v nm op : String) (val : Nat) :
    ((applyCallsV0 SearchQueryV0.new (cs ++ [CallV0.criteria n o v])).params
        = (applyCallsV0 SearchQueryV0.new cs).params
          ++ [("tagtype_" ++ toString (criteriaCount cs + 1), Value.string n),
              ("tag_contains_" ++ toString (criteriaCount cs + 1), Value.string o),
              ("tag_" ++ toString (criteriaCount cs + 1), Value.string v)])
      ∧ ((applyCallsV0 SearchQueryV0.new (cs ++ [CallV0.nutrient nm op val])).params
        = (applyCallsV0 SearchQueryV0.new cs).params
          ++ [("nutriment_" ++ toString (nutrientCount cs + 1), Value.string nm),
              ("nutriment_compare_" ++ toString (nutrientCount cs + 1),
                Value.string op),
              ("nutriment_value_" ++ toString (nutrientCount cs + 1),
                Value.number val)])
      ∧ ∃ tail, (applyCallsV0 SearchQueryV0.new (cs ++ rest)).params
        = (applyCallsV0 SearchQueryV0.new cs).params ++ tail := by
  refine ⟨?_, ?_, ?_⟩
  · rw [applyCallsV0_append]
    rw [show applyCallsV0 (applyCallsV0 SearchQueryV0.new cs) [CallV0.criteria n o v]
        = (applyCallsV0 SearchQueryV0.new cs).criteria n o v from rfl]
    rw [show ∀ q : SearchQueryV0, (q.criteria n o v).params
        = q.params
          ++ [("tagtype_" ++ toString (q.state.criteria_index + 1), Value.string n),
              ("tag_contains_" ++ toString (q.state.criteria_index + 1),
                Value.string o),
              ("tag_" ++ toString (q.state.criteria_index + 1), Value.string v)]
      from fun _ => rfl]
    rw [criteria_index_applyCallsV0 cs SearchQueryV0.new]
    simp [SearchQueryV0.new]
  · rw [applyCallsV0_append]
    rw [show applyCallsV0 (applyCallsV0 SearchQueryV0.new cs) [CallV0.nutrient nm op val]
        = (applyCallsV0 SearchQueryV0.new cs).nutrient nm op val from rfl]
    rw [show ∀ q : SearchQueryV0, (q.nutrient nm op val).params
        = q.params
          ++ [("nutriment_" ++ toString (q.state.nutrient_index + 1), Value.string nm),
              ("nutriment_compare_" ++ toString (q.state.nutrient_index + 1),
                Value.string op),
              ("nutriment_value_" ++ toString (q.state.nutrient_index + 1),
                Value.number val)]
      from fun _ => rfl]
    rw [nutrient_index_applyCallsV0 cs SearchQueryV0.new]
    simp [SearchQueryV0.new]
  · rw [applyCallsV0_append]
    exact params_applyCallsV0_extend rest (applyCallsV0 SearchQueryV0.new cs)

/-- Claim C10 counterexample: a V0 builder pair named "sort_by" can come from an
`ingredient` call, so together with a set sort order the serialized output
holds two pairs named "sort_by". -/
theorem sort_by_duplicate_counterexample :
    queryParamsV0 ((SearchQueryV0.new.ingredient "sort_by" "x").sortBy
        SortBy.Popularity)
      = [("sort_by", "x"), ("sort_by", "unique_scans_n"),
         ("action", "process"), ("json", "true")]
    ∧ List.countP (fun p => p.1 == "sort_by")
        (queryParamsV0 ((SearchQueryV0.new.ingredient "sort_by" "x").sortBy
          SortBy.Popularity)) = 2 := by
  constructor
  · rfl
  · rfl

lemma countP_sortBy_renderPairsV0 (ps : List (String × Value))
    (h : ∀ p ∈ ps, p.1 ≠ "sort_by") :
    List.countP (fun p => p.1 == "sort_by") (renderPairsV0 ps) = 0 := by
  rw [List.countP_eq_zero]
  intro a ha
  unfold renderPairsV0 at ha
  obtain ⟨pair, hmem, heq⟩ := List.mem_filterMap.mp ha
  rcases hv : renderValueV0 pair.2 with _ | s
  · rw [hv] at heq
    simp at heq
  · rw [hv] at heq
    simp at heq
    have : a.1 = pair.1 := by rw [← heq]
    simp [this, h pair hmem]

lemma countP_sortBy_renderPairsV2 (ps : List (String × Value))
    (h : ∀ p ∈ ps, p.1 ≠ "sort_by") :
    List.countP (fun p => p.1 == "sort_by") (renderPairsV2 ps) = 0 := by
  rw [List.countP_eq_zero]
  intro a ha
  unfold renderPairsV2 at ha
  obtain ⟨pair, hmem, heq⟩ := List.mem_map.mp ha
  have : a.1 = pair.1 := by rw [← heq]
  simp [this, h pair hmem]

lemma countP_sortByPairs_le (s : Option SortBy) :
    List.countP (fun p => p.1 == "sort_by") (sortByPairs s) ≤ 1 := by
  cases s <;> simp [sortByPairs, List.countP_cons]

/-- Claim C10 amended: repeated `sort_by` calls overwrite rather than
accumulate — on both versions `q.sort_by(a).sort_by(b)` serializes exactly
as `q.sort_by(b)` — and, provided no accumulated builder pair is itself
named "sort_by" (an `ingredient` name or a V2 nutrient name+unit can
collide with it), the serialized output holds at most one pair named
"sort_by". -/
theorem sort_by_overwrite (a b : SortBy) :
    (∀ q : SearchQueryV0,
      queryParamsV0 ((q.sortBy a).sortBy b) = queryParamsV0 (q.sortBy b))
    ∧ (∀ q : SearchQueryV2,
      queryParamsV2 ((q.sortBy a).sortBy b) = queryParamsV2 (q.sortBy b))
    ∧ (∀ q : SearchQueryV0, (∀ p ∈ q.params, p.1 ≠ "sort_by") →
        List.countP (fun p => p.1 == "sort_by") (queryParamsV0 q) ≤ 1)
    ∧ (∀ q : SearchQueryV2, (∀ p ∈ q.params, p.1 ≠ "sort_by") →
        List.countP (fun p => p.1 == "sort_by") (queryParamsV2 q) ≤ 1) := by
  refine ⟨fun q => rfl, fun q => rfl, ?_, ?_⟩
  · intro q h
    unfold queryParamsV0
    rw [List.countP_append, List.countP_append,
      countP_sortBy_renderPairsV0 q.params h]
    have h1 := countP_sortByPairs_le q.sort_by
    have h2 : List.countP (fun p => p.1 == "sort_by")
        [(("action" : String), ("process" : String)), ("json", "true")] = 0 := by
      rfl
    omega
  · intro q h
    unfold queryParamsV2
    rw [List.countP_append, countP_sortBy_renderPairsV2 q.params h]
    have h1 := countP_sortByPairs_le q.sort_by
    omega

/-- Claim C10 witness: overwrite at a concrete query, and the at-most-one bound
at a concrete query whose accumulated pairs are not named "sort_by". -/
theorem sort_by_overwrite_witness :
    queryParamsV0 ((SearchQueryV0.new.sortBy SortBy.Popularity).sortBy
        SortBy.EcoScore)
      = queryParamsV0 (SearchQueryV0.new.sortBy SortBy.EcoScore)
    ∧ List.countP (fun p => p.1 == "sort_by")
        (queryParamsV0 (SearchQueryV0.new.criteria "brands" "contains" "Nestlé"))
      ≤ 1 :=
  ⟨(sort_by_overwrite SortBy.Popularity SortBy.EcoScore).1 _,
   (sort_by_overwrite SortBy.Popularity SortBy.EcoScore).2.2.1
     (SearchQueryV0.new.criteria "brands" "contains" "Nestlé") (by decide)⟩

/-- Claim C8 witness: at a concrete output bag carrying `page`, `fields` and
`nocache`, the emitted pair `("page", "22")` is in the whitelist result and
is not named "nocache". -/
theorem search_params_whitelist_witness :
    (("page", "22")
        ∈ Output.params
            { page := some 22, fields := some "url", nocache := some true }
            ["page", "page_size", "fields"])
    ∧ (("page", "22") : String × String).1 ≠ "nocache" :=
  ⟨by decide,
   (search_params_whitelist SearchQueryV0.new SearchQueryV2.new
     { page := some 22, fields := some "url", nocache := some true }).2.2
     ("page", "22") (by decide)⟩

end Off
